import Mathlib

/-!
Verification of the D1miniUdpMonitor sketch (DHT11 + ESP8266 UDP telemetry
for MegunoLink).  The sketch's per-cycle behaviour — sensor readings,
exponential smoothing, and the line-oriented TIMEPLOT frame assembled into
one UDP datagram — is embedded as executable Lean definitions, and the
specification's claims are settled against them.

Float values are modelled as rationals; a NaN sensor reading is `Option.none`.
The platform's float-to-text conversion has no fixed precision rule, so frame
builders are parametric in a formatting function `fmt : Option ℚ → String`.
-/

namespace UdpMonitor

/-- A sensor reading: `none` models a NaN ("invalid") value from the DHT. -/
abbrev Reading := Option ℚ

/-- Modelled from the spec: the SmoothingFilter data model (spec section 3).
The source instantiates `ExponentialFilter<float>` from MegunoLink's
`Filter.h`, a library whose code is not part of this repository's sources;
the spec describes its state as a smoothing `weight` and the last smoothed
value `current`. -/
structure SmoothingFilter where
  weight : ℚ
  current : ℚ
  deriving DecidableEq, Repr

/-- Modelled from the spec: `new(weight, seed)` (spec section 4.1) rejects a
weight outside the half-open interval (0, 1] and otherwise seeds `current`
with the caller-supplied seed. -/
def SmoothingFilter.new (weight seed : ℚ) : Option SmoothingFilter :=
  if 0 < weight ∧ weight ≤ 1 then some ⟨weight, seed⟩ else none

/-- Modelled from the spec: `apply(sample)` (spec section 4.1) computes
`current = weight*sample + (1-weight)*current`. -/
def SmoothingFilter.apply (f : SmoothingFilter) (sample : ℚ) : SmoothingFilter :=
  { f with current := f.weight * sample + (1 - f.weight) * f.current }

/-- Modelled from the spec: `value()` returns `current` without mutating
state (spec section 4.1). -/
def SmoothingFilter.value (f : SmoothingFilter) : ℚ :=
  f.current

/-- Apply a whole sequence of samples in order, oldest first. -/
def SmoothingFilter.applyList (f : SmoothingFilter) (samples : List ℚ) : SmoothingFilter :=
  samples.foldl SmoothingFilter.apply f

/-- The closed form claimed for the filter after samples `s₁..sₙ` from seed
`v₀`: `w·sₙ + (1-w)·w·sₙ₋₁ + ... + (1-w)ⁿ·v₀`, written with 0-based list
indices. -/
def smoothedClosedForm (w v0 : ℚ) (samples : List ℚ) : ℚ :=
  (∑ i ∈ Finset.range samples.length,
      w * (1 - w) ^ (samples.length - 1 - i) * samples.getD i 0)
    + (1 - w) ^ samples.length * v0

/-- The mutable globals of the sketch that the per-cycle `loop` touches:
the two exponential filters (source lines 46-47) and the `unsigned long`
`transmitCount` (source line 57), kept as a natural number modulo 2^32. -/
structure MonState where
  temperatureFilter : SmoothingFilter
  humidityFilter : SmoothingFilter
  transmitCount : Nat
  deriving DecidableEq, Repr

/-- 2^32, the modulus of the `unsigned long` transmit counter. -/
def ulongMod : Nat := 4294967296

/-- Source lines 104-108: `if(!isnan(temperature) && !isnan(humidity))`
then both `temperatureFilter.Filter(temperature)` and
`humidityFilter.Filter(humidity)` run; otherwise neither does. -/
def updateFilters (st : MonState) (temperature humidity : Reading) : MonState :=
  match temperature, humidity with
  | some t, some h =>
      { st with
          temperatureFilter := st.temperatureFilter.apply t,
          humidityFilter := st.humidityFilter.apply h }
  | _, _ => st

/-- Source lines 116-122: the seven metadata lines written verbatim on a
metadata cycle (title, x-label, y-label, then one STYLE line per series in
declaration order). -/
def metaLines1 : List String :=
  [ "\x7bTIMEPLOT|SET|title=Remote Temperature & Humidity\x7d\n",
    "\x7bTIMEPLOT|SET|x-label=Time\x7d\n",
    "\x7bTIMEPLOT|SET|y-label=Degrees C / % Relative Humidity\x7d\n",
    "\x7bTIMEPLOT|STYLE|Raw Temperature:bs#\x7d\n",
    "\x7bTIMEPLOT|STYLE|Raw Humidity:ro#\x7d\n",
    "\x7bTIMEPLOT|STYLE|Filtered Temperature:bn_2\x7d\n",
    "\x7bTIMEPLOT|STYLE|Filtered Humidity:rn_2\x7d\n" ]

/-- Source lines 126-139: the four DATA lines, one per series in
declaration order, each assembled from a literal prefix, the printed
numeric value, and a literal `"\x7d\n"` terminator.  `fmt` is the
platform's float-to-text conversion (`Print::print`), left abstract
because the source fixes no precision rule. -/
def dataLines1 (fmt : Reading → String) (temperature humidity : Reading)
    (tf hf : SmoothingFilter) : List String :=
  [ "\x7bTIMEPLOT|DATA|Raw Temperature|T|" ++ fmt temperature ++ "\x7d\n",
    "\x7bTIMEPLOT|DATA|Raw Humidity|T|" ++ fmt humidity ++ "\x7d\n",
    "\x7bTIMEPLOT|DATA|Filtered Temperature|T|" ++ fmt (some tf.current) ++ "\x7d\n",
    "\x7bTIMEPLOT|DATA|Filtered Humidity|T|" ++ fmt (some hf.current) ++ "\x7d\n" ]

/-- Source lines 114-139: the full datagram payload of one cycle as a list
of protocol lines: the metadata block iff `transmitCount % 10 == 0`,
followed by the four data lines. -/
def frameLines1 (fmt : Reading → String) (temperature humidity : Reading)
    (tf hf : SmoothingFilter) (count : Nat) : List String :=
  (if count % 10 = 0 then metaLines1 else []) ++
    dataLines1 fmt temperature humidity tf hf

/-- One execution of `loop` (first sketch variant, source lines 90-147):
read two values, update the filters when both are valid, assemble the
frame using the current (pre-increment) `transmitCount`, send it, then
increment the counter.  Returns the new global state and the frame. -/
def loopStep1 (fmt : Reading → String) (st : MonState)
    (temperature humidity : Reading) : MonState × List String :=
  let st' := updateFilters st temperature humidity
  ({ st' with transmitCount := (st.transmitCount + 1) % ulongMod },
   frameLines1 fmt temperature humidity st'.temperatureFilter st'.humidityFilter
     st.transmitCount)

/-- Run `loop` over a list of per-cycle sensor readings, collecting the
frame sent on each cycle. -/
def run1 (fmt : Reading → String) : MonState → List (Reading × Reading) → List (List String)
  | _, [] => []
  | st, r :: rest =>
      (loopStep1 fmt st r.1 r.2).2 :: run1 fmt (loopStep1 fmt st r.1 r.2).1 rest

/-- A frame carries metadata when one of the seven metadata lines occurs
in it. -/
def hasMetadata (frame : List String) : Prop :=
  ∃ l ∈ metaLines1, l ∈ frame

instance (frame : List String) : Decidable (hasMetadata frame) := by
  unfold hasMetadata
  infer_instance

/-- A correctly framed protocol line: terminated by a newline, with no
embedded newline before it. -/
def lineOk (l : String) : Prop :=
  l.data.getLast? = some '\n' ∧ '\n' ∉ l.data.dropLast

instance (l : String) : Decidable (lineOk l) := by
  unfold lineOk
  infer_instance

/-- The shape shared by all emitted STYLE lines:
`\x7bTIMEPLOT|STYLE|<name>:<codes>\x7d` plus newline. -/
def styleLine (name codes : String) : String :=
  "\x7bTIMEPLOT|STYLE|" ++ name ++ ":" ++ codes ++ "\x7d\n"

/-- Modelled from the spec: the byte form the claim asserts for style
lines — name, colon, one colour code character, one line-style code
character, the decimal digits of a positive integer width, and one marker
code character.  The width is passed as its digit string. -/
def claimedStyleLine (name : String) (colorCode lineCode : Char)
    (widthDigits : String) (markerCode : Char) : String :=
  "\x7bTIMEPLOT|STYLE|" ++ name ++ ":" ++ String.mk [colorCode, lineCode]
    ++ widthDigits ++ String.mk [markerCode] ++ "\x7d\n"

/-- Modelled from the spec: the device-defined colour palette of a series
(spec section 3) with its enum-to-character mapping (spec section 4.2). -/
inductive PlotColour
  | Blue
  | Red
  | Black
  | Green
  deriving DecidableEq, Repr

/-- Modelled from the spec: colour enum to character code. -/
def PlotColour.code : PlotColour → Char
  | .Blue => 'b'
  | .Red => 'r'
  | .Black => 'k'
  | .Green => 'g'

/-- Modelled from the spec: the line-style enum of a series. -/
inductive PlotLineType
  | Solid
  | NoLine
  | Dashed
  deriving DecidableEq, Repr

/-- Modelled from the spec: line-style enum to character code. -/
def PlotLineType.code : PlotLineType → Char
  | .Solid => 's'
  | .NoLine => 'n'
  | .Dashed => 'd'

/-- Modelled from the spec: the marker enum of a series. -/
inductive PlotMarker
  | Square
  | Circle
  | NoMarker
  deriving DecidableEq, Repr

/-- Modelled from the spec: marker enum to character code. -/
def PlotMarker.code : PlotMarker → Char
  | .Square => '#'
  | .Circle => 'o'
  | .NoMarker => 'n'

/-- Modelled from the spec: a `SET` line of the encoder (spec section 4.2);
this is what the TimePlot library's `SetTitle`/`SetXlabel`/`SetYlabel`
calls of the second sketch variant render, the library itself not being
part of this repository's sources. -/
def setLine (key text : String) : String :=
  "\x7bTIMEPLOT|SET|" ++ key ++ "=" ++ text ++ "\x7d\n"

/-- Modelled from the spec: the style-declaration line rendered by
`SetSeriesProperties` (spec section 4.2): colour code, line code, width,
marker code after the series name. -/
def seriesPropertiesLine (name : String) (c : PlotColour) (lt : PlotLineType)
    (width : Nat) (mk : PlotMarker) : String :=
  "\x7bTIMEPLOT|STYLE|" ++ name ++ ":" ++ String.mk [c.code, lt.code]
    ++ toString width ++ String.mk [mk.code] ++ "\x7d\n"

/-- Modelled from the spec: the data line rendered by `SendData`
(spec section 4.2). -/
def sendDataLine (fmt : Reading → String) (name : String) (v : Reading) : String :=
  "\x7bTIMEPLOT|DATA|" ++ name ++ "|T|" ++ fmt v ++ "\x7d\n"

/-- Source lines 263-278 (second sketch variant): the same frame built
through the TimePlot API, with the API's rendering modelled from the spec. -/
def frameLines2 (fmt : Reading → String) (temperature humidity : Reading)
    (tf hf : SmoothingFilter) (count : Nat) : List String :=
  (if count % 10 = 0 then
    [ setLine "title" "Remote Temperature & Humidity",
      setLine "x-label" "Time",
      setLine "y-label" "Degrees C / % Relative Humidity",
      seriesPropertiesLine "Raw Temperature" .Blue .NoLine 1 .Square,
      seriesPropertiesLine "Raw Humidity" .Red .NoLine 1 .Circle,
      seriesPropertiesLine "Filtered Temperature" .Blue .Solid 2 .NoMarker,
      seriesPropertiesLine "Filtered Humidity" .Red .Solid 2 .NoMarker ]
   else []) ++
  [ sendDataLine fmt "Raw Temperature" temperature,
    sendDataLine fmt "Raw Humidity" humidity,
    sendDataLine fmt "Filtered Temperature" (some tf.current),
    sendDataLine fmt "Filtered Humidity" (some hf.current) ]

/-- The datagram payload of one cycle of the first (direct-write) variant. -/
def payload1 (fmt : Reading → String) (temperature humidity : Reading)
    (tf hf : SmoothingFilter) (count : Nat) : String :=
  String.join (frameLines1 fmt temperature humidity tf hf count)

/-- The datagram payload of one cycle of the second (TimePlot API) variant. -/
def payload2 (fmt : Reading → String) (temperature humidity : Reading)
    (tf hf : SmoothingFilter) (count : Nat) : String :=
  String.join (frameLines2 fmt temperature humidity tf hf count)

/-- A concrete formatting function for witnesses: every value prints as
a fixed numeral, the way a constant reading would. -/
def constFmt : Reading → String :=
  fun _ => "25.00"

/-- A concrete initial state for witnesses: the source's seeds 25 and 50,
with a weight of 1/2, counter at zero. -/
def st0 : MonState :=
  ⟨⟨1/2, 25⟩, ⟨1/2, 50⟩, 0⟩

/-- Twenty cycles of constant valid readings, for witnesses. -/
def inputs20 : List (Reading × Reading) :=
  List.replicate 20 (some 25, some 50)

lemma applyList_closedForm (w : ℚ) (samples : List ℚ) :
    ∀ v0 : ℚ,
      (SmoothingFilter.applyList ⟨w, v0⟩ samples).current = smoothedClosedForm w v0 samples := by
  induction samples with
  | nil =>
      intro v0
      simp [SmoothingFilter.applyList, smoothedClosedForm]
  | cons s rest ih =>
      intro v0
      have hstep :
          SmoothingFilter.applyList ⟨w, v0⟩ (s :: rest)
            = SmoothingFilter.applyList ⟨w, w * s + (1 - w) * v0⟩ rest := by
        simp [SmoothingFilter.applyList, SmoothingFilter.apply]
      rw [hstep, ih (w * s + (1 - w) * v0)]
      unfold smoothedClosedForm
      rw [List.length_cons, Finset.sum_range_succ']
      have hidx : ∀ i : ℕ, (s :: rest).getD (i + 1) 0 = rest.getD i 0 := by
        intro i
        simp
      have hexp : ∀ i : ℕ, rest.length + 1 - 1 - (i + 1) = rest.length - 1 - i := by
        intro i
        omega
      have hsum :
          (∑ i ∈ Finset.range rest.length,
              w * (1 - w) ^ (rest.length + 1 - 1 - (i + 1)) * (s :: rest).getD (i + 1) 0)
            = ∑ i ∈ Finset.range rest.length,
                w * (1 - w) ^ (rest.length - 1 - i) * rest.getD i 0 := by
        refine Finset.sum_congr rfl ?_
        intro i _
        rw [hidx i, hexp i]
      rw [hsum]
      have h0 : (s :: rest).getD 0 0 = s := rfl
      rw [h0]
      simp only [Nat.add_sub_cancel, Nat.sub_zero]
      ring

/-- C1: each `apply` sets `current` to `w*sample + (1-w)*current` and returns
it, and after samples `s₁..sₙ` from seed `v₀` (for any weight accepted by the
constructor, i.e. `w ∈ (0,1]`) the filter's `current` equals the closed form
`w·sₙ + (1-w)·w·sₙ₋₁ + ... + (1-w)ⁿ·v₀`. -/
theorem smoothingFilter_linear_recurrence (w v0 : ℚ) (f : SmoothingFilter)
    (hnew : SmoothingFilter.new w v0 = some f) :
    (∀ g : SmoothingFilter, ∀ s : ℚ,
        (g.apply s).value = g.weight * s + (1 - g.weight) * g.value)
      ∧ ∀ samples : List ℚ,
          (f.applyList samples).current = smoothedClosedForm w v0 samples := by
  have hf : f = ⟨w, v0⟩ := by
    unfold SmoothingFilter.new at hnew
    by_cases h : 0 < w ∧ w ≤ 1
    · rw [if_pos h] at hnew
      exact (Option.some.injEq _ _ ▸ hnew.symm : _)
    · rw [if_neg h] at hnew
      exact absurd hnew (by simp)
  constructor
  · intro g s
    rfl
  · intro samples
    rw [hf]
    exact applyList_closedForm w samples v0

/-- Witness for C1: weight 1/2, seed 1, samples [1, 2, 3]. -/
theorem smoothingFilter_linear_recurrence_witness :
    (SmoothingFilter.applyList ⟨(1 : ℚ)/2, 1⟩ [1, 2, 3]).current
      = smoothedClosedForm ((1 : ℚ)/2) 1 [1, 2, 3] :=
  (smoothingFilter_linear_recurrence ((1 : ℚ)/2) 1 ⟨(1 : ℚ)/2, 1⟩
    (by norm_num [SmoothingFilter.new])).2 [1, 2, 3]

/-- C6: constructing a SmoothingFilter succeeds exactly for weights in
(0, 1]; weight 0 and weights above 1 are rejected. -/
theorem smoothingFilter_new_validates_weight (w seed : ℚ) :
    (∃ f, SmoothingFilter.new w seed = some f) ↔ (0 < w ∧ w ≤ 1) := by
  unfold SmoothingFilter.new
  by_cases h : 0 < w ∧ w ≤ 1
  · rw [if_pos h]
    exact ⟨fun _ => h, fun _ => ⟨⟨w, seed⟩, rfl⟩⟩
  · rw [if_neg h]
    exact ⟨fun ⟨f, hf⟩ => absurd hf (by simp), fun hw => absurd hw h⟩

lemma data_take_of_append_left (lit x y : String) (n : Nat) (hlen : n ≤ lit.data.length) :
    (lit ++ x ++ y).data.take n = lit.data.take n := by
  rw [String.data_append, String.data_append, List.append_assoc,
    List.take_append_eq_append_take, Nat.sub_eq_zero_of_le hlen]
  simp

lemma metaLine_take (m : String) (hm : m ∈ metaLines1) :
    m.data.take 11 = "\x7bTIMEPLOT|S".data := by
  simp only [metaLines1, List.mem_cons, List.not_mem_nil, or_false] at hm
  rcases hm with rfl | rfl | rfl | rfl | rfl | rfl | rfl <;> decide

lemma dataLine1_take (fmt : Reading → String) (temperature humidity : Reading)
    (tf hf : SmoothingFilter) (l : String)
    (hl : l ∈ dataLines1 fmt temperature humidity tf hf) :
    l.data.take 11 = "\x7bTIMEPLOT|D".data := by
  simp only [dataLines1, List.mem_cons, List.not_mem_nil, or_false] at hl
  rcases hl with rfl | rfl | rfl | rfl <;>
    · rw [data_take_of_append_left _ _ _ 11 (by decide)]
      decide

lemma meta_not_in_dataLines1 (fmt : Reading → String) (temperature humidity : Reading)
    (tf hf : SmoothingFilter) (m : String) (hm : m ∈ metaLines1) :
    m ∉ dataLines1 fmt temperature humidity tf hf := by
  intro hl
  have h1 := metaLine_take m hm
  have h2 := dataLine1_take fmt temperature humidity tf hf m hl
  rw [h1] at h2
  exact absurd h2 (by decide)

lemma hasMetadata_frameLines1 (fmt : Reading → String) (temperature humidity : Reading)
    (tf hf : SmoothingFilter) (count : Nat) :
    hasMetadata (frameLines1 fmt temperature humidity tf hf count) ↔ count % 10 = 0 := by
  unfold hasMetadata frameLines1
  by_cases h : count % 10 = 0
  · rw [if_pos h]
    constructor
    · intro _
      exact h
    · intro _
      refine ⟨"\x7bTIMEPLOT|SET|title=Remote Temperature & Humidity\x7d\n", ?_, ?_⟩
      · simp [metaLines1]
      · apply List.mem_append_left
        simp [metaLines1]
  · rw [if_neg h]
    constructor
    · rintro ⟨l, hlm, hlf⟩
      rw [List.nil_append] at hlf
      exact absurd hlf (meta_not_in_dataLines1 fmt temperature humidity tf hf l hlm)
    · intro hc
      exact absurd hc h

lemma lineOk_append_terminator (a : String) (hna : '\n' ∉ a.data) :
    lineOk (a ++ "\x7d\n") := by
  have hdata : (a ++ "\x7d\n").data = (a.data ++ ['\x7d']) ++ ['\n'] := by
    rw [String.data_append, List.append_assoc]
    rfl
  constructor
  · rw [hdata, List.getLast?_concat]
  · rw [hdata, List.dropLast_concat]
    intro hmem
    rcases List.mem_append.mp hmem with h | h
    · exact hna h
    · exact absurd (List.mem_singleton.mp h) (by decide)

lemma lineOk_dataLine1 (lit : String) (fmt : Reading → String) (v : Reading)
    (hlit : '\n' ∉ lit.data) (hfmt : '\n' ∉ (fmt v).data) :
    lineOk (lit ++ fmt v ++ "\x7d\n") := by
  apply lineOk_append_terminator
  rw [String.data_append]
  intro hmem
  rcases List.mem_append.mp hmem with h | h
  · exact hlit h
  · exact hfmt h

lemma frameLines1_lineOk (fmt : Reading → String) (temperature humidity : Reading)
    (tf hf : SmoothingFilter) (count : Nat)
    (hfmt : ∀ v : Reading, '\n' ∉ (fmt v).data) :
    ∀ l ∈ frameLines1 fmt temperature humidity tf hf count, lineOk l := by
  intro l hl
  unfold frameLines1 at hl
  rcases List.mem_append.mp hl with h | h
  · have hm : l ∈ metaLines1 := by
      by_cases hc : count % 10 = 0
      · rwa [if_pos hc] at h
      · rw [if_neg hc] at h
        exact absurd h (List.not_mem_nil l)
    simp only [metaLines1, List.mem_cons, List.not_mem_nil, or_false] at hm
    rcases hm with rfl | rfl | rfl | rfl | rfl | rfl | rfl <;> decide
  · simp only [dataLines1, List.mem_cons, List.not_mem_nil, or_false] at h
    rcases h with rfl | rfl | rfl | rfl <;>
      exact lineOk_dataLine1 _ fmt _ (by decide) (hfmt _)

lemma run1_getD (fmt : Reading → String) :
    ∀ (inputs : List (Reading × Reading)) (st : MonState) (k : Nat),
      k < inputs.length → st.transmitCount < ulongMod →
      ∃ temperature humidity tf hf,
        (run1 fmt st inputs).getD k []
          = frameLines1 fmt temperature humidity tf hf
              ((st.transmitCount + k) % ulongMod) := by
  intro inputs
  induction inputs with
  | nil =>
      intro st k hk _
      exact absurd hk (by simp)
  | cons r rest ih =>
      intro st k hk hc
      match k with
      | 0 =>
          refine ⟨r.1, r.2, (updateFilters st r.1 r.2).temperatureFilter,
            (updateFilters st r.1 r.2).humidityFilter, ?_⟩
          have : (st.transmitCount + 0) % ulongMod = st.transmitCount := by
            rw [Nat.add_zero]
            exact Nat.mod_eq_of_lt hc
          rw [this]
          rfl
      | k' + 1 =>
          have hk' : k' < rest.length := by
            simpa using Nat.lt_of_succ_lt_succ hk
          have hstep : (run1 fmt st (r :: rest)).getD (k' + 1) []
              = (run1 fmt (loopStep1 fmt st r.1 r.2).1 rest).getD k' [] := rfl
          have hc' : (loopStep1 fmt st r.1 r.2).1.transmitCount < ulongMod := by
            apply Nat.mod_lt
            decide
          obtain ⟨t, h, tf, hf, hfr⟩ := ih (loopStep1 fmt st r.1 r.2).1 k' hk' hc'
          refine ⟨t, h, tf, hf, ?_⟩
          rw [hstep, hfr]
          have hcount : ((loopStep1 fmt st r.1 r.2).1.transmitCount + k') % ulongMod
              = (st.transmitCount + (k' + 1)) % ulongMod := by
            show ((st.transmitCount + 1) % ulongMod + k') % ulongMod
              = (st.transmitCount + (k' + 1)) % ulongMod
            rw [Nat.mod_add_mod]
            ring_nf
          rw [hcount]

/-- C2: on a metadata cycle the frame is exactly one title-set line, one
x-label-set line, one y-label-set line, one style line per series in
declaration order, then one data line per series, each line
newline-terminated with no embedded newline (given that the platform's
number formatting emits no newline). -/
theorem metadata_frame_order_and_framing (fmt : Reading → String)
    (temperature humidity : Reading) (tf hf : SmoothingFilter) (count : Nat)
    (hfmt : ∀ v : Reading, '\n' ∉ (fmt v).data) (hmeta : count % 10 = 0) :
    frameLines1 fmt temperature humidity tf hf count
      = [ "\x7bTIMEPLOT|SET|title=Remote Temperature & Humidity\x7d\n",
          "\x7bTIMEPLOT|SET|x-label=Time\x7d\n",
          "\x7bTIMEPLOT|SET|y-label=Degrees C / % Relative Humidity\x7d\n",
          "\x7bTIMEPLOT|STYLE|Raw Temperature:bs#\x7d\n",
          "\x7bTIMEPLOT|STYLE|Raw Humidity:ro#\x7d\n",
          "\x7bTIMEPLOT|STYLE|Filtered Temperature:bn_2\x7d\n",
          "\x7bTIMEPLOT|STYLE|Filtered Humidity:rn_2\x7d\n",
          "\x7bTIMEPLOT|DATA|Raw Temperature|T|" ++ fmt temperature ++ "\x7d\n",
          "\x7bTIMEPLOT|DATA|Raw Humidity|T|" ++ fmt humidity ++ "\x7d\n",
          "\x7bTIMEPLOT|DATA|Filtered Temperature|T|" ++ fmt (some tf.current) ++ "\x7d\n",
          "\x7bTIMEPLOT|DATA|Filtered Humidity|T|" ++ fmt (some hf.current) ++ "\x7d\n" ]
    ∧ ∀ l ∈ frameLines1 fmt temperature humidity tf hf count, lineOk l := by
  refine ⟨?_, frameLines1_lineOk fmt temperature humidity tf hf count hfmt⟩
  unfold frameLines1 metaLines1 dataLines1
  rw [if_pos hmeta]
  rfl

/-- Witness for C2: the concrete metadata-cycle frame is exactly the
eleven lines in the claimed order. -/
theorem metadata_frame_order_and_framing_witness :
    frameLines1 constFmt (some 25) (some 50)
        st0.temperatureFilter st0.humidityFilter 0
      = [ "\x7bTIMEPLOT|SET|title=Remote Temperature & Humidity\x7d\n",
          "\x7bTIMEPLOT|SET|x-label=Time\x7d\n",
          "\x7bTIMEPLOT|SET|y-label=Degrees C / % Relative Humidity\x7d\n",
          "\x7bTIMEPLOT|STYLE|Raw Temperature:bs#\x7d\n",
          "\x7bTIMEPLOT|STYLE|Raw Humidity:ro#\x7d\n",
          "\x7bTIMEPLOT|STYLE|Filtered Temperature:bn_2\x7d\n",
          "\x7bTIMEPLOT|STYLE|Filtered Humidity:rn_2\x7d\n",
          "\x7bTIMEPLOT|DATA|Raw Temperature|T|" ++ constFmt (some 25) ++ "\x7d\n",
          "\x7bTIMEPLOT|DATA|Raw Humidity|T|" ++ constFmt (some 50) ++ "\x7d\n",
          "\x7bTIMEPLOT|DATA|Filtered Temperature|T|"
            ++ constFmt (some st0.temperatureFilter.current) ++ "\x7d\n",
          "\x7bTIMEPLOT|DATA|Filtered Humidity|T|"
            ++ constFmt (some st0.humidityFilter.current) ++ "\x7d\n" ] :=
  (metadata_frame_order_and_framing constFmt (some 25) (some 50)
    st0.temperatureFilter st0.humidityFilter 0
    (fun _ => by simp only [constFmt]; decide) (by decide)).1

/-- C3: with cadence 10 and the counter starting at 0, over 20 consecutive
cycles metadata lines appear in the frames of exactly cycles 0 and 10. -/
theorem metadata_cadence_twenty_cycles (fmt : Reading → String) (st : MonState)
    (inputs : List (Reading × Reading))
    (hst : st.transmitCount = 0) (hlen : inputs.length = 20)
    (k : Nat) (hk : k < 20) :
    hasMetadata ((run1 fmt st inputs).getD k []) ↔ (k = 0 ∨ k = 10) := by
  obtain ⟨t, h, tf, hf, hfr⟩ :=
    run1_getD fmt inputs st k (by omega) (by rw [hst]; decide)
  rw [hfr, hasMetadata_frameLines1, hst, Nat.zero_add]
  have hkm : k % ulongMod = k := Nat.mod_eq_of_lt (by unfold ulongMod; omega)
  rw [hkm]
  omega

/-- Witness for C3: the first of twenty concrete cycles does carry
metadata. -/
theorem metadata_cadence_twenty_cycles_witness :
    hasMetadata ((run1 constFmt st0 inputs20).getD 0 []) ↔ (0 = 0 ∨ 0 = 10) :=
  metadata_cadence_twenty_cycles constFmt st0 inputs20 rfl (by decide) 0 (by decide)

/-- C4 counterexample: the emitted style line for the series Raw
Temperature is a frame line of the sketch, yet it admits no decomposition
into colour code, line code, the decimal digits of a positive-integer
width, and marker code — its code string bs# carries no width digits at
all. -/
theorem style_line_claimed_form_counterexample :
    styleLine "Raw Temperature" "bs#" ∈ metaLines1
    ∧ ¬ ∃ (colorCode lineCode markerCode : Char) (widthDigits : String),
        0 < widthDigits.length
        ∧ (∀ c ∈ widthDigits.data, c.isDigit)
        ∧ claimedStyleLine "Raw Temperature" colorCode lineCode widthDigits markerCode
            = styleLine "Raw Temperature" "bs#" := by
  constructor
  · decide
  · rintro ⟨c, l, m, w, hw, _, heq⟩
    have hw' : 0 < w.data.length := hw
    have hd := congrArg String.data heq
    have emk2 : (String.mk [c, l]).data = [c, l] := rfl
    have emk1 : (String.mk [m]).data = [m] := rfl
    simp only [claimedStyleLine, styleLine, String.data_append, emk2, emk1] at hd
    have hlen := congrArg List.length hd
    simp only [List.length_append] at hlen
    have e1 : ("\x7bTIMEPLOT|STYLE|" : String).data.length = 16 := rfl
    have e2 : ("Raw Temperature" : String).data.length = 15 := rfl
    have e3 : (":" : String).data.length = 1 := rfl
    have e4 : ("\x7d\n" : String).data.length = 2 := rfl
    have e5 : ("bs#" : String).data.length = 3 := rfl
    have e6 : ([c, l] : List Char).length = 2 := rfl
    have e7 : ([m] : List Char).length = 1 := rfl
    rw [e1, e2, e3, e4, e5, e6, e7] at hlen
    omega

/-- C4 amended: the four emitted style lines have the byte form
TIMEPLOT STYLE name colon codes, with the fixed per-series code strings
bs#, ro#, bn_2 and rn_2 (the raw series carry no width digits; only the
filtered series carry the width 2), and each is newline-terminated. -/
theorem style_lines_fixed_code_strings :
    metaLines1.drop 3
      = [ styleLine "Raw Temperature" "bs#",
          styleLine "Raw Humidity" "ro#",
          styleLine "Filtered Temperature" "bn_2",
          styleLine "Filtered Humidity" "rn_2" ]
    ∧ ∀ l ∈ metaLines1.drop 3, lineOk l := by
  constructor
  · decide
  · decide

/-- C5 counterexample: with a valid temperature 20 and an invalid (NaN)
humidity, the temperature filter is left untouched — although applying the
valid sample would have changed it — because the source guards both filter
updates by one conjoined validity test. -/
theorem filters_not_independent_counterexample :
    (updateFilters st0 (some 20) none).temperatureFilter = st0.temperatureFilter
    ∧ (st0.temperatureFilter.apply 20).value ≠ st0.temperatureFilter.value := by
  constructor
  · rfl
  · simp only [st0, SmoothingFilter.apply, SmoothingFilter.value]
    norm_num

/-- C5 amended: the two filters are updated jointly, not independently:
both are applied exactly when both readings are valid, and if either
reading is invalid neither filter's state changes. -/
theorem filters_updated_jointly (st : MonState) (temperature humidity : Reading) :
    (∀ t h, temperature = some t → humidity = some h →
        updateFilters st temperature humidity
          = { st with
                temperatureFilter := st.temperatureFilter.apply t,
                humidityFilter := st.humidityFilter.apply h })
    ∧ (temperature = none ∨ humidity = none →
        updateFilters st temperature humidity = st) := by
  constructor
  · rintro t h rfl rfl
    rfl
  · rintro (rfl | rfl)
    · rfl
    · cases temperature <;> rfl

/-- Witness for C5 amended: an invalid humidity leaves the whole filter
state unchanged. -/
theorem filters_updated_jointly_witness :
    updateFilters st0 (some 20) none = st0 :=
  (filters_updated_jointly st0 (some 20) none).2 (Or.inr rfl)

/-- C7 counterexample: a concrete metadata-cycle frame has 11 lines, not
the claimed 3 + 4 = 7. -/
theorem frame_line_count_counterexample :
    (frameLines1 constFmt (some 25) (some 50)
        st0.temperatureFilter st0.humidityFilter 0).length ≠ 7 := by
  decide

/-- C7 amended: rendering metadata followed by the data lines of the four
declared series produces exactly 3 + 4 + 4 = 11 newline-terminated lines —
three label-set lines, four style lines, four data lines — in the wire
format's field order. -/
theorem metadata_frame_line_count (fmt : Reading → String)
    (temperature humidity : Reading) (tf hf : SmoothingFilter) (count : Nat)
    (hfmt : ∀ v : Reading, '\n' ∉ (fmt v).data) (hmeta : count % 10 = 0) :
    (frameLines1 fmt temperature humidity tf hf count).length = 3 + 4 + 4
    ∧ frameLines1 fmt temperature humidity tf hf count
        = metaLines1 ++ dataLines1 fmt temperature humidity tf hf
    ∧ ∀ l ∈ frameLines1 fmt temperature humidity tf hf count, lineOk l := by
  refine ⟨?_, ?_, frameLines1_lineOk fmt temperature humidity tf hf count hfmt⟩
  · unfold frameLines1
    rw [if_pos hmeta]
    rfl
  · unfold frameLines1
    rw [if_pos hmeta]

/-- Witness for C7 amended: a concrete metadata-cycle frame has 11 lines. -/
theorem metadata_frame_line_count_witness :
    (frameLines1 constFmt (some 25) (some 50)
        st0.temperatureFilter st0.humidityFilter 0).length = 3 + 4 + 4 :=
  (metadata_frame_line_count constFmt (some 25) (some 50)
    st0.temperatureFilter st0.humidityFilter 0
    (fun _ => by simp only [constFmt]; decide) (by decide)).1

/-- C8 counterexample: on the cycle whose incoming counter is 0, the frame
does carry metadata, yet the incremented counter of that cycle is 1, which
fails the mod-10 test — so the value the metadata decision tests cannot be
the already-incremented counter. -/
theorem counter_increment_order_counterexample :
    hasMetadata (loopStep1 constFmt st0 (some 25) (some 50)).2
    ∧ (loopStep1 constFmt st0 (some 25) (some 50)).1.transmitCount % 10 ≠ 0 := by
  constructor
  · decide
  · decide

/-- C8 amended: the counter is incremented only after the frame is built
and sent; the metadata decision tests the pre-increment counter of the
cycle. -/
theorem counter_incremented_after_frame (fmt : Reading → String) (st : MonState)
    (temperature humidity : Reading) :
    (hasMetadata (loopStep1 fmt st temperature humidity).2
        ↔ st.transmitCount % 10 = 0)
    ∧ (loopStep1 fmt st temperature humidity).1.transmitCount
        = (st.transmitCount + 1) % ulongMod := by
  constructor
  · exact hasMetadata_frameLines1 fmt temperature humidity
      (updateFilters st temperature humidity).temperatureFilter
      (updateFilters st temperature humidity).humidityFilter st.transmitCount
  · rfl

/-- C9: a cycle with an invalid sample leaves the corresponding filter's
value unchanged, and the frame's filtered data line for that series still
carries the unchanged last smoothed value. -/
theorem invalid_sample_preserves_filter_and_frame (fmt : Reading → String)
    (st : MonState) (temperature humidity : Reading) :
    (temperature = none →
        (loopStep1 fmt st temperature humidity).1.temperatureFilter.value
            = st.temperatureFilter.value
        ∧ ("\x7bTIMEPLOT|DATA|Filtered Temperature|T|"
              ++ fmt (some st.temperatureFilter.value) ++ "\x7d\n")
            ∈ (loopStep1 fmt st temperature humidity).2)
    ∧ (humidity = none →
        (loopStep1 fmt st temperature humidity).1.humidityFilter.value
            = st.humidityFilter.value
        ∧ ("\x7bTIMEPLOT|DATA|Filtered Humidity|T|"
              ++ fmt (some st.humidityFilter.value) ++ "\x7d\n")
            ∈ (loopStep1 fmt st temperature humidity).2) := by
  constructor
  · rintro rfl
    have hupd : updateFilters st none humidity = st := by
      cases humidity <;> rfl
    constructor
    · show (updateFilters st none humidity).temperatureFilter.value
        = st.temperatureFilter.value
      rw [hupd]
    · show _ ∈ frameLines1 fmt none humidity
        (updateFilters st none humidity).temperatureFilter
        (updateFilters st none humidity).humidityFilter st.transmitCount
      rw [hupd]
      unfold frameLines1
      apply List.mem_append_right
      simp [dataLines1, SmoothingFilter.value]
  · rintro rfl
    have hupd : updateFilters st temperature none = st := by
      cases temperature <;> rfl
    constructor
    · show (updateFilters st temperature none).humidityFilter.value
        = st.humidityFilter.value
      rw [hupd]
    · show _ ∈ frameLines1 fmt temperature none
        (updateFilters st temperature none).temperatureFilter
        (updateFilters st temperature none).humidityFilter st.transmitCount
      rw [hupd]
      unfold frameLines1
      apply List.mem_append_right
      simp [dataLines1, SmoothingFilter.value]

/-- Witness for C9: an invalid temperature reading leaves the temperature
filter's value intact and the frame still carries it. -/
theorem invalid_sample_preserves_filter_and_frame_witness :
    (loopStep1 constFmt st0 none (some 40)).1.temperatureFilter.value
        = st0.temperatureFilter.value
    ∧ ("\x7bTIMEPLOT|DATA|Filtered Temperature|T|"
          ++ constFmt (some st0.temperatureFilter.value) ++ "\x7d\n")
        ∈ (loopStep1 constFmt st0 none (some 40)).2 :=
  (invalid_sample_preserves_filter_and_frame constFmt st0 none (some 40)).1 rfl

set_option maxRecDepth 16384 in
/-- C10 counterexample: on a metadata cycle the two sketch variants build
different payloads — the direct-write variant's style lines (codes bs#,
ro#, bn_2, rn_2) differ from the TimePlot API's rendered style lines. -/
theorem variants_payload_counterexample :
    payload1 constFmt (some 25) (some 50)
        st0.temperatureFilter st0.humidityFilter 0
      ≠ payload2 constFmt (some 25) (some 50)
          st0.temperatureFilter st0.humidityFilter 0 := by
  decide

/-- C10 amended: on every cycle that emits no metadata (counter not a
multiple of 10) the two variants' datagram payloads are byte-for-byte
identical for the same readings, filter states and counter. -/
theorem variants_payload_equal_without_metadata (fmt : Reading → String)
    (temperature humidity : Reading) (tf hf : SmoothingFilter) (count : Nat)
    (h : count % 10 ≠ 0) :
    payload1 fmt temperature humidity tf hf count
      = payload2 fmt temperature humidity tf hf count := by
  unfold payload1 payload2 frameLines1 frameLines2
  rw [if_neg h, if_neg h]
  rfl

/-- Witness for C10 amended: at counter 1 the two variants' payloads
coincide. -/
theorem variants_payload_equal_without_metadata_witness :
    payload1 constFmt (some 25) (some 50)
        st0.temperatureFilter st0.humidityFilter 1
      = payload2 constFmt (some 25) (some 50)
          st0.temperatureFilter st0.humidityFilter 1 :=
  variants_payload_equal_without_metadata constFmt (some 25) (some 50)
    st0.temperatureFilter st0.humidityFilter 1 (by decide)

end UdpMonitor
